import Mathlib

/-!
Verification of `niceshare.py`, a configuration front-end that assembles a
`gst-launch-1.0` command line for SRT screen sharing and wraps it in a
`nix-shell` invocation.

The Python source is shallowly embedded below.  Conventions:
* Python `int` values are `Int` (or `Nat` where the source guarantees
  non-negativity, e.g. fields matched by `\d+`); Python f-string formatting
  of an integer is its decimal representation `Nat.repr` / `Int.repr`.
* `Optional[str]` arguments are `Option String`; Python truthiness of such a
  value (`if args.passphrase:`) is `optTruthy` below (`None` and `""` are
  falsy).
* Fallible steps are `Except PyError`; an uncaught Python exception (e.g.
  `TypeError` from unpacking `None`) is an `.error` value.
* External effects (the wx display query, DNS resolution, `subprocess.run`)
  are function parameters supplying their results.
-/

/-- Python exceptions that the embedded fragments of `main` can raise
(uncaught; the script installs no handler for any of them). -/
inductive PyError where
  | typeError
  | valueError
  | nameError
deriving DecidableEq, Repr

/-- Line 29-30: `concat_lists` — `itertools.chain.from_iterable`. -/
def concat_lists (list_of_lists : List (List String)) : List String :=
  list_of_lists.flatten

/-- Python truthiness of an `Optional[str]`: `None` and the empty string are
falsy, every other string is truthy. -/
def optTruthy : Option String → Bool
  | none => false
  | some s => if s = "" then false else true

/-- Python `' '.join(tokens)`. -/
def pyJoin : List String → String
  | [] => ""
  | [s] => s
  | s :: rest => s ++ " " ++ pyJoin rest

/-- Python `int(g)` on a string of decimal digits (most significant first). -/
def digitsToNat (l : List Char) : Nat :=
  l.foldl (fun acc c => 10 * acc + (c.toNat - 48)) 0

/-- Consume the maximal leading run of (ASCII) digits, `\d+`: fails when the
run is empty, otherwise returns the run and the remaining characters. -/
def munchDigits (l : List Char) : Option (List Char × List Char) :=
  if l.takeWhile Char.isDigit = [] then none
  else some (l.takeWhile Char.isDigit, l.dropWhile Char.isDigit)

/-- Consume one expected literal character. -/
def expectChar (c : Char) : List Char → Option (List Char)
  | [] => none
  | a :: rest => if a = c then some rest else none

/-- Line 33 + line 37: matching the regex `(\d+)x(\d+)\+(\d+),(\d+)` with
`re.match` (anchored at the start of the string only; characters may remain
after the match).  Because in this pattern every `\d+` is followed either by a
literal non-digit character or by the end of the pattern, Python's
greedy-with-backtracking semantics coincide with the deterministic
maximal-munch matching implemented here.  `\d` is modelled as the ASCII
digits `0`-`9`. -/
def matchScreenshareRegex (l : List Char) : Option (Nat × Nat × Nat × Nat) :=
  match munchDigits l with
  | none => none
  | some (g1, r1) =>
    match expectChar 'x' r1 with
    | none => none
    | some r2 =>
      match munchDigits r2 with
      | none => none
      | some (g2, r3) =>
        match expectChar '+' r3 with
        | none => none
        | some r4 =>
          match munchDigits r4 with
          | none => none
          | some (g3, r5) =>
            match expectChar ',' r5 with
            | none => none
            | some r6 =>
              match munchDigits r6 with
              | none => none
              | some (g4, _) =>
                some (digitsToNat g1, digitsToNat g2, digitsToNat g3, digitsToNat g4)

/-- Lines 36-45: `parse_screenshare_argument` — returns `(w, h, x, y)` on
success, `None` on failure. -/
def parse_screenshare_argument (screenshare_arg : String) :
    Option (Nat × Nat × Nat × Nat) :=
  matchScreenshareRegex screenshare_arg.data

/-- Lines 21-26: `get_all_screens_size` — the wx display query supplies
`all_w` and `all_h`; the function returns the string `f'{all_w}x{all_h},0+0'`
(note the swapped `,` and `+` compared to the `f'{w}x{h}+{x},{y}'` format used
in `list_screen_sizes`, line 17). -/
def get_all_screens_size (all_w all_h : Nat) : String :=
  Nat.repr all_w ++ "x" ++ Nat.repr all_h ++ ",0+0"

/-- The format `f'{w}x{h}+{x},{y}'` of the spec's round-trip property (the
same format that `list_screen_sizes`, line 17, uses for per-screen
geometries). -/
def pyFormat (w h x y : Nat) : String :=
  Nat.repr w ++ "x" ++ Nat.repr h ++ "+" ++ Nat.repr x ++ "," ++ Nat.repr y

/-- Reference decimal representation (most significant digit first), used to
reason about `Nat.repr`. -/
def reprDigits (n : Nat) : List Char :=
  if n < 10 then [Nat.digitChar n]
  else reprDigits (n / 10) ++ [Nat.digitChar (n % 10)]
decreasing_by
  exact Nat.div_lt_self (by omega) (by omega)

/-- The resolved argparse namespace (lines 61-137).  `--listen-port` and
`--call` are strings; `--view` is a `store_true` boolean; `--screenshare-*`
flags store a geometry string into `screenshare`; `--screenshare-rectangle`
stores into `screenshare_rectangle`; `bitrate`, `latency`, `fps` are Python
ints; `passphrase` is an optional string; `print_command` a boolean. -/
structure Args where
  listen_port : Option String := none
  call : Option String := none
  view : Bool := false
  screenshare : Option String := none
  screenshare_rectangle : Option String := none
  bitrate : Int := 2048
  fec : Bool := false
  latency : Int := 1000
  fps : Int := 30
  passphrase : Option String := none
  print_command : Bool := false
deriving Repr

/-- Python `s.split(c)` on the character list of `s` (splits at every
occurrence of `c`; always returns at least one, possibly empty, group). -/
def pySplitChar (sep : Char) : List Char → List (List Char)
  | [] => [[]]
  | c :: rest =>
    if c = sep then [] :: pySplitChar sep rest
    else
      match pySplitChar sep rest with
      | [] => [[c]]
      | g :: gs => (c :: g) :: gs

/-- Python `s.split(':')` for strings. -/
def pySplit (sep : Char) (s : String) : List String :=
  (pySplitChar sep s.data).map List.asString

/-- Lines 141-146: compute the SRT target URI.  `resolve` stands for
`socket.gethostbyname`.  When `args.call` does not contain exactly one `:`,
the two-variable unpacking of `split(':')` raises `ValueError`; when neither
role flag is truthy, `uri` is never assigned and its later use raises
`NameError` (argparse's required mutually-exclusive group normally prevents
this). -/
def computeUri (resolve : String → String) (args : Args) : Except PyError String :=
  if optTruthy args.listen_port then
    .ok ("srt://:" ++ args.listen_port.getD "")
  else if optTruthy args.call then
    match pySplit ':' (args.call.getD "") with
    | [hostname, port] => .ok ("srt://" ++ resolve hostname ++ ":" ++ port)
    | _ => .error .valueError
  else
    .error .nameError

/-- Lines 148-151: `--screenshare-rectangle` is manually translated into
`args.screenshare` when truthy. -/
def effScreenshare (args : Args) : Option String :=
  if optTruthy args.screenshare_rectangle then args.screenshare_rectangle
  else args.screenshare

/-- Lines 167-170: the `srtsink` stage, with FEC and passphrase tokens
appended only when the corresponding option is truthy. -/
def srtSinkStage (uri : String) (latency : Int) (fec : Bool)
    (passphrase : Option String) : String :=
  "! srtsink uri=" ++ uri ++ " latency=" ++ Int.repr latency ++ " " ++
    pyJoin (concat_lists [
      if fec then ["packetfilter=fec,cols:3,rows:-3,layout:staircase,arq:always"] else [],
      if optTruthy passphrase then ["passphrase=" ++ passphrase.getD ""] else []])

/-- Lines 175-178: the `srtsrc` stage of the view pipeline, same omission
rule for the FEC and passphrase tokens. -/
def srtSrcStage (uri : String) (fec : Bool) (passphrase : Option String) : String :=
  "srtsrc uri=" ++ uri ++ " " ++
    pyJoin (concat_lists [
      if fec then ["packetfilter=fec"] else [],
      if optTruthy passphrase then ["passphrase=" ++ passphrase.getD ""] else []])

/-- Lines 153-185: build `gst_launch_args`.  In the screenshare branch the
result of `parse_screenshare_argument` is unpacked into four variables
without a `None` check, so an unmatched geometry string raises `TypeError`
(line 154).  The `elif args.view is not None:` guard (line 172) is always
true, because `args.view` is a boolean, never `None`; hence the view pipeline
is built whenever no screenshare geometry is set. -/
def gst_launch_args (uri : String) (args : Args) : Except PyError (List String) :=
  match effScreenshare args with
  | some sarg =>
    match parse_screenshare_argument sarg with
    | none => .error .typeError
    | some (width, height, startx, starty) =>
      let endx : Int := (startx : Int) + (width : Int) - 1
      let endy : Int := (starty : Int) + (height : Int) - 1
      .ok [
        "gst-launch-1.0",
        "ximagesrc startx=" ++ Nat.repr startx ++ " endx=" ++ Int.repr endx ++
          " starty=" ++ Nat.repr starty ++ " endy=" ++ Int.repr endy ++
          " show-pointer=true use-damage=0",
        "! queue",
        "! videoconvert",
        "! clockoverlay",
        "! x264enc tune=zerolatency speed-preset=fast bitrate=" ++ Int.repr args.bitrate ++
          " threads=1 byte-stream=true key-int-max=60 intra-refresh=true",
        "! video/x-h264, profile=baseline, framerate=" ++ Int.repr args.fps ++ "/1",
        "! mpegtsmux",
        "! queue",
        srtSinkStage uri args.latency args.fec args.passphrase]
  | none =>
      .ok [
        "gst-launch-1.0",
        srtSrcStage uri args.fec args.passphrase,
        "! queue",
        "! tsdemux",
        "! h264parse",
        "! video/x-h264",
        "! avdec_h264",
        "! autovideosink sync=false"]

/-- Lines 141-185 combined: resolve the URI, then build the pipeline stage
list; the first uncaught exception aborts the run. -/
def mainBuild (resolve : String → String) (args : Args) :
    Except PyError (List String) :=
  match computeUri resolve args with
  | .error e => .error e
  | .ok uri => gst_launch_args uri args

/-- Lines 200-205: after printing the flags and the command, the command is
run as a child process unless `--print-command` was given.  `run` stands for
`subprocess.run` and yields the child's exit status; its result
(`CompletedProcess`) is discarded, `main` falls through and returns `None`,
so the interpreter's exit status is 0 in every case. -/
def runMainTail (run : String → Int) (print_command : Bool) (command : String) : Int :=
  if !print_command then
    let _completed := run command
    0
  else
    0

/-- A character list begins with a match of `(\d+)x(\d+)\+(\d+),(\d+)`:
four non-empty ASCII-digit groups separated by the literal characters
`x`, `+`, `,`, followed by arbitrary remaining characters. -/
def HasRectMatch (l : List Char) : Prop :=
  ∃ a b c d rest : List Char,
    l = a ++ 'x' :: (b ++ '+' :: (c ++ ',' :: (d ++ rest))) ∧
    a ≠ [] ∧ b ≠ [] ∧ c ≠ [] ∧ d ≠ [] ∧
    (∀ ch ∈ a, ch.isDigit) ∧ (∀ ch ∈ b, ch.isDigit) ∧
    (∀ ch ∈ c, ch.isDigit) ∧ (∀ ch ∈ d, ch.isDigit)

/-- The spec's end-to-end example configuration: `--listen-port 5000
--screenshare-screen-i` selecting the geometry `1920x1080+0,0`, all other
options at their defaults. -/
def exampleArgs : Args :=
  { listen_port := some "5000", screenshare := some "1920x1080+0,0" }

/-- A configuration whose custom rectangle has zero width and height. -/
def zeroRectArgs : Args :=
  { listen_port := some "5000", screenshare_rectangle := some "0x0+0,0" }

/-- A configuration whose custom rectangle does not match the format. -/
def badRectArgs : Args :=
  { listen_port := some "5000", screenshare_rectangle := some "garbage" }

example : parse_screenshare_argument "1920x1080+0,0" = some (1920, 1080, 0, 0) := by decide
example : parse_screenshare_argument "1920x1080,0+0" = none := by decide
example : parse_screenshare_argument "1920x1080+0,0tail" = some (1920, 1080, 0, 0) := by decide
example : parse_screenshare_argument "" = none := by decide
example : reprDigits 1080 = ['1', '0', '8', '0'] := by simp [reprDigits, Nat.digitChar]
example : Nat.repr 1080 = "1080" := by decide

theorem digitChar_isDigit {m : Nat} (h : m < 10) : (Nat.digitChar m).isDigit = true := by
  interval_cases m <;> decide

theorem digitChar_toNat {m : Nat} (h : m < 10) : (Nat.digitChar m).toNat = m + 48 := by
  interval_cases m <;> decide

theorem reprDigits_ne_nil (n : Nat) : reprDigits n ≠ [] := by
  rw [reprDigits]
  split <;> simp

theorem reprDigits_isDigit (n : Nat) : ∀ c ∈ reprDigits n, c.isDigit = true := by
  induction n using Nat.strong_induction_on with
  | _ n ih =>
    rw [reprDigits]
    split
    · next h =>
      intro c hc
      simp only [List.mem_singleton] at hc
      subst hc
      exact digitChar_isDigit h
    · next h =>
      intro c hc
      rw [List.mem_append, List.mem_singleton] at hc
      rcases hc with hc | hc
      · exact ih (n / 10) (Nat.div_lt_self (by omega) (by omega)) c hc
      · subst hc
        exact digitChar_isDigit (Nat.mod_lt n (by omega))

theorem foldl_digits_reprDigits (n : Nat) :
    ∀ acc : Nat,
      (reprDigits n).foldl (fun acc c => 10 * acc + (c.toNat - 48)) acc =
        acc * 10 ^ (reprDigits n).length + n := by
  induction n using Nat.strong_induction_on with
  | _ n ih =>
    intro acc
    rw [reprDigits]
    split
    · next h =>
      simp only [List.foldl_cons, List.foldl_nil, List.length_singleton]
      rw [digitChar_toNat h]
      omega
    · next h =>
      rw [List.foldl_append, List.length_append]
      rw [ih (n / 10) (Nat.div_lt_self (by omega) (by omega)) acc]
      simp only [List.foldl_cons, List.foldl_nil, List.length_singleton]
      rw [digitChar_toNat (Nat.mod_lt n (by omega))]
      have hdm : 10 * (n / 10) + n % 10 = n := Nat.div_add_mod n 10
      have hpow : 10 ^ ((reprDigits (n / 10)).length + 1) =
          10 ^ (reprDigits (n / 10)).length * 10 := pow_succ 10 _
      rw [hpow]
      ring_nf
      omega

theorem digitsToNat_reprDigits (n : Nat) : digitsToNat (reprDigits n) = n := by
  have := foldl_digits_reprDigits n 0
  simpa [digitsToNat] using this

theorem toDigitsCore_append (b : Nat) :
    ∀ (f n : Nat) (ds : List Char),
      Nat.toDigitsCore b f n ds = Nat.toDigitsCore b f n [] ++ ds := by
  intro f
  induction f with
  | zero => intro n ds; simp [Nat.toDigitsCore]
  | succ f ih =>
    intro n ds
    simp only [Nat.toDigitsCore]
    by_cases hz : n / b = 0
    · simp [hz]
    · rw [if_neg hz, if_neg hz, ih (n / b) (Nat.digitChar (n % b) :: ds),
        ih (n / b) [Nat.digitChar (n % b)]]
      simp

theorem toDigitsCore_eq_reprDigits (n : Nat) :
    ∀ f : Nat, n < f → Nat.toDigitsCore 10 f n [] = reprDigits n := by
  induction n using Nat.strong_induction_on with
  | _ n ih =>
    intro f hf
    match f, hf with
    | f + 1, _ =>
      simp only [Nat.toDigitsCore]
      by_cases hz : n / 10 = 0
      · rw [if_pos hz, reprDigits]
        have h10 : n < 10 := by omega
        rw [if_pos h10, Nat.mod_eq_of_lt h10]
      · rw [if_neg hz, toDigitsCore_append,
          ih (n / 10) (Nat.div_lt_self (by omega) (by omega)) f (by omega)]
        conv_rhs => rw [reprDigits]
        rw [if_neg (by omega : ¬ n < 10)]

theorem natRepr_data (n : Nat) : (Nat.repr n).data = reprDigits n :=
  toDigitsCore_eq_reprDigits n (n + 1) (Nat.lt_succ_self n)

theorem natRepr_ne_nil (n : Nat) : (Nat.repr n).data ≠ [] := by
  rw [natRepr_data]; exact reprDigits_ne_nil n

theorem natRepr_isDigit (n : Nat) : ∀ c ∈ (Nat.repr n).data, c.isDigit = true := by
  rw [natRepr_data]; exact reprDigits_isDigit n

theorem digitsToNat_natRepr (n : Nat) : digitsToNat (Nat.repr n).data = n := by
  rw [natRepr_data]; exact digitsToNat_reprDigits n

theorem intRepr_chars (i : Int) : ∀ c ∈ (Int.repr i).data, c.isDigit = true ∨ c = '-' := by
  cases i with
  | ofNat m =>
    intro c hc
    exact Or.inl (natRepr_isDigit m c hc)
  | negSucc m =>
    intro c hc
    have : (Int.repr (Int.negSucc m)).data = '-' :: (Nat.repr (Nat.succ m)).data := rfl
    rw [this] at hc
    rcases List.mem_cons.mp hc with hc | hc
    · exact Or.inr hc
    · exact Or.inl (natRepr_isDigit _ c hc)

theorem munchDigits_append {ds : List Char} (hne : ds ≠ [])
    (hds : ∀ c ∈ ds, c.isDigit = true) {c : Char} (hc : c.isDigit = false)
    (rest : List Char) :
    munchDigits (ds ++ c :: rest) = some (ds, c :: rest) := by
  unfold munchDigits
  have ht : (ds ++ c :: rest).takeWhile Char.isDigit = ds := by
    rw [List.takeWhile_append_of_pos hds, List.takeWhile_cons, hc]
    simp
  have hd : (ds ++ c :: rest).dropWhile Char.isDigit = c :: rest := by
    rw [List.dropWhile_append_of_pos hds, List.dropWhile_cons, hc]
    simp
  rw [ht, hd, if_neg hne]

theorem munchDigits_all {ds : List Char} (hne : ds ≠ [])
    (hds : ∀ c ∈ ds, c.isDigit = true) :
    munchDigits ds = some (ds, []) := by
  unfold munchDigits
  have ht : ds.takeWhile Char.isDigit = ds := by
    have := @List.takeWhile_append_of_pos Char Char.isDigit ds [] hds
    simpa using this
  have hd : ds.dropWhile Char.isDigit = [] := by
    have := @List.dropWhile_append_of_pos Char Char.isDigit ds [] hds
    simpa using this
  rw [ht, hd, if_neg hne]

theorem munchDigits_any {ds rest : List Char} (hne : ds ≠ [])
    (hds : ∀ c ∈ ds, c.isDigit = true) :
    munchDigits (ds ++ rest) =
      some (ds ++ rest.takeWhile Char.isDigit, rest.dropWhile Char.isDigit) := by
  unfold munchDigits
  rw [List.takeWhile_append_of_pos hds, List.dropWhile_append_of_pos hds]
  rw [if_neg (by simp [hne])]

theorem munchDigits_eq_some {l ds r : List Char}
    (h : munchDigits l = some (ds, r)) :
    l = ds ++ r ∧ ds ≠ [] ∧ ∀ c ∈ ds, c.isDigit = true := by
  unfold munchDigits at h
  by_cases hz : l.takeWhile Char.isDigit = []
  · rw [if_pos hz] at h
    exact absurd h (by simp)
  · rw [if_neg hz] at h
    have h2 : l.dropWhile Char.isDigit = r := by
      have := Option.some.inj h
      exact congrArg Prod.snd this
    have h1' : l.takeWhile Char.isDigit = ds := by
      have := Option.some.inj h
      exact congrArg Prod.fst this
    refine ⟨?_, ?_, ?_⟩
    · rw [← h1', ← h2, List.takeWhile_append_dropWhile]
    · rw [← h1']; exact hz
    · intro c hc
      rw [← h1'] at hc
      have hall := List.all_takeWhile (p := Char.isDigit) (l := l)
      rw [List.all_eq_true] at hall
      exact hall c hc

theorem expectChar_eq_some {c : Char} {l r : List Char}
    (h : expectChar c l = some r) : l = c :: r := by
  cases l with
  | nil => simp [expectChar] at h
  | cons a l' =>
    by_cases ha : a = c
    · subst ha
      simp [expectChar] at h
      rw [h]
    · simp [expectChar, ha] at h

theorem expectChar_self (c : Char) (r : List Char) :
    expectChar c (c :: r) = some r := by
  simp [expectChar]

theorem matchRegex_some_inv {l : List Char} {res : Nat × Nat × Nat × Nat}
    (h : matchScreenshareRegex l = some res) : HasRectMatch l := by
  unfold matchScreenshareRegex at h
  split at h
  · exact absurd h (by simp)
  · next g1 r1 heq1 =>
    split at h
    · exact absurd h (by simp)
    · next r2 heq2 =>
      split at h
      · exact absurd h (by simp)
      · next g2 r3 heq3 =>
        split at h
        · exact absurd h (by simp)
        · next r4 heq4 =>
          split at h
          · exact absurd h (by simp)
          · next g3 r5 heq5 =>
            split at h
            · exact absurd h (by simp)
            · next r6 heq6 =>
              split at h
              · exact absurd h (by simp)
              · next g4 rem heq7 =>
                obtain ⟨hl1, hne1, hd1⟩ := munchDigits_eq_some heq1
                have hr1 := expectChar_eq_some heq2
                obtain ⟨hl2, hne2, hd2⟩ := munchDigits_eq_some heq3
                have hr3 := expectChar_eq_some heq4
                obtain ⟨hl3, hne3, hd3⟩ := munchDigits_eq_some heq5
                have hr5 := expectChar_eq_some heq6
                obtain ⟨hl4, hne4, hd4⟩ := munchDigits_eq_some heq7
                refine ⟨g1, g2, g3, g4, rem, ?_, hne1, hne2, hne3, hne4,
                  hd1, hd2, hd3, hd4⟩
                rw [hl1, hr1, hl2, hr3, hl3, hr5, hl4]

theorem matchRegex_isSome_of_rectMatch {l : List Char} (h : HasRectMatch l) :
    (matchScreenshareRegex l).isSome = true := by
  obtain ⟨a, b, c, d, rest, heq, ha, hb, hc, hd, hda, hdb, hdc, hdd⟩ := h
  subst heq
  have e1 := munchDigits_append ha hda (c := 'x') (by decide)
      (b ++ '+' :: (c ++ ',' :: (d ++ rest)))
  have e2 := munchDigits_append hb hdb (c := '+') (by decide)
      (c ++ ',' :: (d ++ rest))
  have e3 := munchDigits_append hc hdc (c := ',') (by decide) (d ++ rest)
  have e4 := @munchDigits_any d rest hd hdd
  simp only [matchScreenshareRegex, e1, e2, e3, e4, expectChar_self,
    Option.isSome_some]

theorem matchRegex_isSome_iff (l : List Char) :
    (matchScreenshareRegex l).isSome = true ↔ HasRectMatch l := by
  constructor
  · intro h
    obtain ⟨res, hres⟩ := Option.isSome_iff_exists.mp h
    exact matchRegex_some_inv hres
  · exact matchRegex_isSome_of_rectMatch

/-- C5: for all non-negative decimal integers w, h, x, y, parsing the
formatted string f-string w x h + x , y with `parse_screenshare_argument`
succeeds and returns exactly the tuple (w, h, x, y). -/
theorem C5_format_parse_round_trip : ∀ w h x y : Nat,
    parse_screenshare_argument (pyFormat w h x y) = some (w, h, x, y) := by
  intro w h x y
  have hdata : (pyFormat w h x y).data =
      reprDigits w ++ 'x' :: (reprDigits h ++ '+' :: (reprDigits x ++ ',' :: reprDigits y)) := by
    have hx : ("x" : String).data = ['x'] := rfl
    have hp : ("+" : String).data = ['+'] := rfl
    have hc : ("," : String).data = [','] := rfl
    simp [pyFormat, natRepr_data, hx, hp, hc]
  unfold parse_screenshare_argument
  rw [hdata]
  have e1 := munchDigits_append (reprDigits_ne_nil w) (reprDigits_isDigit w)
      (c := 'x') (by decide) (reprDigits h ++ '+' :: (reprDigits x ++ ',' :: reprDigits y))
  have e2 := munchDigits_append (reprDigits_ne_nil h) (reprDigits_isDigit h)
      (c := '+') (by decide) (reprDigits x ++ ',' :: reprDigits y)
  have e3 := munchDigits_append (reprDigits_ne_nil x) (reprDigits_isDigit x)
      (c := ',') (by decide) (reprDigits y)
  have e4 := munchDigits_all (reprDigits_ne_nil y) (reprDigits_isDigit y)
  simp only [matchScreenshareRegex, e1, e2, e3, e4, expectChar_self,
    digitsToNat_reprDigits]

/-- C1 (code bug): the geometry string produced for the all-displays capture
mode does NOT conform to the rectangle format — `get_all_screens_size`
formats the offset part as `,0+0` instead of `+0,0` (comma and plus swapped
relative to `list_screen_sizes` and the documented format), so the rectangle
parser fails on every all-displays geometry string. -/
theorem C1_all_screens_size_never_parses : ∀ all_w all_h : Nat,
    parse_screenshare_argument (get_all_screens_size all_w all_h) = none := by
  intro w h
  have hdata : (get_all_screens_size w h).data =
      reprDigits w ++ 'x' :: (reprDigits h ++ ',' :: ['0', '+', '0']) := by
    have hx : ("x" : String).data = ['x'] := rfl
    have ht : (",0+0" : String).data = [','] ++ ['0', '+', '0'] := rfl
    simp [get_all_screens_size, natRepr_data, hx, ht]
  unfold parse_screenshare_argument
  rw [hdata]
  have e1 := munchDigits_append (reprDigits_ne_nil w) (reprDigits_isDigit w)
      (c := 'x') (by decide) (reprDigits h ++ ',' :: ['0', '+', '0'])
  have e2 := munchDigits_append (reprDigits_ne_nil h) (reprDigits_isDigit h)
      (c := ',') (by decide) ['0', '+', '0']
  simp only [matchScreenshareRegex, e1, e2, expectChar_self]
  rfl

/-- C2 (counterexample): a string with trailing characters after a valid
rectangle prefix is NOT rejected — `re.match` anchors only at the start, so
`parse_screenshare_argument` accepts it and ignores the trailing characters,
contradicting the claim that such inputs return the structured failure. -/
theorem C2_counterexample_trailing_accepted :
    parse_screenshare_argument "1920x1080+0,0tail" = some (1920, 1080, 0, 0) ∧
    parse_screenshare_argument "1920x1080+0,0tail" ≠ none := by
  constructor
  · decide
  · decide

/-- C2 (amended): `parse_screenshare_argument` is a total function that
returns None exactly when the input does not BEGIN with a match of
`(\d+)x(\d+)\+(\d+),(\d+)` — in particular the empty string, a missing
separator, negative numbers and non-numeric fields all return None and never
raise — but a valid rectangle prefix followed by trailing characters is
accepted (the trailing characters are ignored), not rejected. -/
theorem C2_amended_none_iff_no_match :
    (∀ s : String, parse_screenshare_argument s = none ↔ ¬ HasRectMatch s.data) ∧
    parse_screenshare_argument "" = none ∧
    parse_screenshare_argument "1920x1080" = none ∧
    parse_screenshare_argument "-1x1080+0,0" = none ∧
    parse_screenshare_argument "wxh+0,0" = none := by
  refine ⟨?_, by decide, by decide, by decide, by decide⟩
  intro s
  rw [← matchRegex_isSome_iff s.data]
  unfold parse_screenshare_argument
  cases matchScreenshareRegex s.data <;> simp

/-- C3 (counterexample): with a bad rectangle string as the custom-rectangle
option in plain-CLI mode, `main` does not report a structured ParseError —
line 154 unpacks the parser's `None` result into four variables, so the run
aborts with an uncaught `TypeError` before any pipeline is built. -/
theorem C3_counterexample_uncaught_type_error :
    mainBuild (fun _ => "") badRectArgs = Except.error PyError.typeError := by
  rfl

/-- C3 (amended): when a bad rectangle string is supplied as the
custom-rectangle option, the program does not proceed to build or run the
pipeline, but the failure is an uncaught `TypeError` (from unpacking `None`),
not a reported ParseError with a format hint (such a hint exists only in the
GUI validator and the `--help` text). -/
theorem C3_amended_bad_rectangle_aborts (resolve : String → String) (args : Args)
    (uri s : String)
    (hu : computeUri resolve args = Except.ok uri)
    (hs : effScreenshare args = some s)
    (hp : parse_screenshare_argument s = none) :
    mainBuild resolve args = Except.error PyError.typeError := by
  simp only [mainBuild, gst_launch_args, hu, hs, hp]

/-- C3 witness: the amended theorem applied to a concrete configuration with
rectangle string "garbage". -/
theorem C3_witness :
    computeUri (fun _ => "") badRectArgs = Except.ok "srt://:5000" ∧
    effScreenshare badRectArgs = some "garbage" ∧
    parse_screenshare_argument "garbage" = none ∧
    mainBuild (fun _ => "") badRectArgs = Except.error PyError.typeError :=
  ⟨rfl, rfl, by decide,
    C3_amended_bad_rectangle_aborts (fun _ => "") badRectArgs "srt://:5000" "garbage"
      rfl rfl (by decide)⟩

/-- C4 (counterexample): the child process exits with status 1, but the
program's exit status is 0, not 1 — the result of `subprocess.run` is
discarded, so the child's exit status is not propagated. -/
theorem C4_counterexample_status_not_mirrored :
    runMainTail (fun _ => 1) false "cmd" = 0 ∧
    runMainTail (fun _ => 1) false "cmd" ≠ 1 := by
  exact ⟨rfl, by decide⟩

/-- C4 (amended): when the composed command is executed (dry-run not
requested), the program's exit status is 0 regardless of the exit status of
the external child process — `subprocess.run`'s returned `CompletedProcess`
is discarded and `main` returns normally. -/
theorem C4_amended_exit_always_zero :
    ∀ (run : String → Int) (print_command : Bool) (command : String),
      runMainTail run print_command command = 0 := by
  intro run pc cmd
  unfold runMainTail
  cases pc <;> rfl

theorem infix_append_left_my {t s : List Char} (u : List Char) (h : t <:+: s) :
    t <:+: u ++ s := by
  obtain ⟨pre, post, rfl⟩ := h
  exact ⟨u ++ pre, post, by simp⟩

theorem infix_append_right_my {t s : List Char} (u : List Char) (h : t <:+: s) :
    t <:+: s ++ u := by
  obtain ⟨pre, post, rfl⟩ := h
  exact ⟨pre, post ++ u, by simp⟩

theorem not_infix_of_not_mem {t s : List Char} {c : Char} (hct : c ∈ t)
    (hcs : c ∉ s) : ¬ t <:+: s :=
  fun h => hcs (h.subset hct)

/-- C6: for every screenshare configuration whose rectangle parses to
(width, height, startx, starty), the capture source stage encodes the
inclusive end coordinates endx = startx + width - 1 and
endy = starty + height - 1; and for the end-to-end example config
(listen 5000, screenshare 1920x1080+0,0, defaults) the source stage encodes
startx=0 endx=1919 starty=0 endy=1079, the encoder stage encodes
bitrate=2048, and the sink stage encodes uri=srt://:5000 latency=1000 with
no FEC or passphrase tokens. -/
theorem C6_source_stage_end_coordinates :
    (∀ (uri s : String) (args : Args) (w h x y : Nat),
      effScreenshare args = some s →
      parse_screenshare_argument s = some (w, h, x, y) →
      ∃ stages : List String, gst_launch_args uri args = Except.ok stages ∧
        stages[1]? = some
          ("ximagesrc startx=" ++ Nat.repr x ++ " endx=" ++
            Int.repr ((x : Int) + (w : Int) - 1) ++ " starty=" ++ Nat.repr y ++
            " endy=" ++ Int.repr ((y : Int) + (h : Int) - 1) ++
            " show-pointer=true use-damage=0")) ∧
    (computeUri (fun _ => "") exampleArgs = Except.ok "srt://:5000" ∧
      ∃ stages : List String,
        gst_launch_args "srt://:5000" exampleArgs = Except.ok stages ∧
        stages[1]? =
          some "ximagesrc startx=0 endx=1919 starty=0 endy=1079 show-pointer=true use-damage=0" ∧
        stages[5]? =
          some "! x264enc tune=zerolatency speed-preset=fast bitrate=2048 threads=1 byte-stream=true key-int-max=60 intra-refresh=true" ∧
        "bitrate=2048".data <:+:
          "! x264enc tune=zerolatency speed-preset=fast bitrate=2048 threads=1 byte-stream=true key-int-max=60 intra-refresh=true".data ∧
        stages[9]? = some "! srtsink uri=srt://:5000 latency=1000 " ∧
        ¬ "packetfilter".data <:+: "! srtsink uri=srt://:5000 latency=1000 ".data ∧
        ¬ "passphrase".data <:+: "! srtsink uri=srt://:5000 latency=1000 ".data) := by
  constructor
  · intro uri s args w h x y hs hp
    have hg : gst_launch_args uri args = Except.ok [
        "gst-launch-1.0",
        "ximagesrc startx=" ++ Nat.repr x ++ " endx=" ++
          Int.repr ((x : Int) + (w : Int) - 1) ++ " starty=" ++ Nat.repr y ++
          " endy=" ++ Int.repr ((y : Int) + (h : Int) - 1) ++
          " show-pointer=true use-damage=0",
        "! queue",
        "! videoconvert",
        "! clockoverlay",
        "! x264enc tune=zerolatency speed-preset=fast bitrate=" ++
          Int.repr args.bitrate ++
          " threads=1 byte-stream=true key-int-max=60 intra-refresh=true",
        "! video/x-h264, profile=baseline, framerate=" ++ Int.repr args.fps ++ "/1",
        "! mpegtsmux",
        "! queue",
        srtSinkStage uri args.latency args.fec args.passphrase] := by
      simp only [gst_launch_args, hs, hp]
    exact ⟨_, hg, rfl⟩
  · refine ⟨rfl, ⟨_, rfl, rfl, rfl, by decide, rfl, by decide, by decide⟩⟩

/-- C6 witness: the general part applied to the example configuration. -/
theorem C6_witness :
    ∃ stages : List String,
      gst_launch_args "srt://:5000" exampleArgs = Except.ok stages ∧
      stages[1]? = some
        ("ximagesrc startx=" ++ Nat.repr 0 ++ " endx=" ++
          Int.repr ((0 : Int) + (1920 : Int) - 1) ++ " starty=" ++ Nat.repr 0 ++
          " endy=" ++ Int.repr ((0 : Int) + (1080 : Int) - 1) ++
          " show-pointer=true use-damage=0") :=
  C6_source_stage_end_coordinates.1 "srt://:5000" "1920x1080+0,0" exampleArgs
    1920 1080 0 0 rfl (by decide)

/-- C9 (counterexample): the rectangle string "0x0+0,0" is accepted by the
parser with width = 0 and height = 0, and the pipeline builder receives it
and builds a pipeline (with endx = endy = -1); no width > 0 / height > 0
validation exists between the parser and the builder. -/
theorem C9_counterexample_zero_rectangle :
    parse_screenshare_argument "0x0+0,0" = some (0, 0, 0, 0) ∧
    gst_launch_args "srt://:5000" zeroRectArgs = Except.ok [
      "gst-launch-1.0",
      "ximagesrc startx=0 endx=-1 starty=0 endy=-1 show-pointer=true use-damage=0",
      "! queue",
      "! videoconvert",
      "! clockoverlay",
      "! x264enc tune=zerolatency speed-preset=fast bitrate=2048 threads=1 byte-stream=true key-int-max=60 intra-refresh=true",
      "! video/x-h264, profile=baseline, framerate=30/1",
      "! mpegtsmux",
      "! queue",
      "! srtsink uri=srt://:5000 latency=1000 "] := by
  exact ⟨by decide, rfl⟩

/-- C9 (amended): every rectangle accepted by the parser has non-negative
fields (they are matched by `\d+`), but zero width or height is NOT rejected:
for every parsed rectangle, including w = 0 or h = 0, the builder is reached
and builds a pipeline — in particular for the configuration with custom
rectangle "0x0+0,0". -/
theorem C9_amended_builder_reached_without_positivity_check :
    (∀ (uri s : String) (args : Args) (w h x y : Nat),
      effScreenshare args = some s →
      parse_screenshare_argument s = some (w, h, x, y) →
      ∃ stages : List String, gst_launch_args uri args = Except.ok stages) ∧
    effScreenshare zeroRectArgs = some "0x0+0,0" := by
  constructor
  · intro uri s args w h x y hs hp
    have hg : gst_launch_args uri args = Except.ok [
        "gst-launch-1.0",
        "ximagesrc startx=" ++ Nat.repr x ++ " endx=" ++
          Int.repr ((x : Int) + (w : Int) - 1) ++ " starty=" ++ Nat.repr y ++
          " endy=" ++ Int.repr ((y : Int) + (h : Int) - 1) ++
          " show-pointer=true use-damage=0",
        "! queue",
        "! videoconvert",
        "! clockoverlay",
        "! x264enc tune=zerolatency speed-preset=fast bitrate=" ++
          Int.repr args.bitrate ++
          " threads=1 byte-stream=true key-int-max=60 intra-refresh=true",
        "! video/x-h264, profile=baseline, framerate=" ++ Int.repr args.fps ++ "/1",
        "! mpegtsmux",
        "! queue",
        srtSinkStage uri args.latency args.fec args.passphrase] := by
      simp only [gst_launch_args, hs, hp]
    exact ⟨_, hg⟩
  · rfl

/-- C9 witness: the amended theorem applied to the zero-size rectangle
configuration. -/
theorem C9_witness :
    effScreenshare zeroRectArgs = some "0x0+0,0" ∧
    parse_screenshare_argument "0x0+0,0" = some (0, 0, 0, 0) ∧
    ∃ stages : List String,
      gst_launch_args "srt://:5000" zeroRectArgs = Except.ok stages :=
  ⟨rfl, by decide,
    C9_amended_builder_reached_without_positivity_check.1 "srt://:5000" "0x0+0,0"
      zeroRectArgs 0 0 0 0 rfl (by decide)⟩

/-- C10: an empty-string passphrase is treated the same as an unset
passphrase — Python's truthiness test on `args.passphrase` is false for both
`None` and `""`, so the sink/source stage contains no passphrase parameter at
all (the token is omitted, not emitted as `passphrase=`). -/
theorem C10_empty_passphrase_like_unset :
    (∀ (uri : String) (latency : Int) (fec : Bool),
      srtSinkStage uri latency fec (some "") = srtSinkStage uri latency fec none) ∧
    (∀ (uri : String) (fec : Bool),
      srtSrcStage uri fec (some "") = srtSrcStage uri fec none) ∧
    ¬ "passphrase".data <:+: (srtSinkStage "srt://:5000" 1000 false (some "")).data ∧
    ¬ "passphrase".data <:+: (srtSrcStage "srt://:5000" false (some "")).data := by
  refine ⟨fun uri latency fec => rfl, fun uri fec => rfl, by decide, by decide⟩

theorem sinkStage_falsy_no_p {uri : String} (latency : Int) {pass : Option String}
    (huri : 'p' ∉ uri.data) (hpass : optTruthy pass = false) :
    'p' ∉ (srtSinkStage uri latency false pass).data := by
  intro hmem
  simp only [srtSinkStage, hpass, concat_lists, Bool.false_eq_true, if_false,
    List.flatten, List.append_nil, List.nil_append, pyJoin,
    String.data_append, List.mem_append] at hmem
  rcases hmem with (((h | h) | h) | h) | h
  · exact absurd h (by decide)
  · exact huri h
  · exact absurd h (by decide)
  · rcases intRepr_chars latency 'p' h with hd | hd
    · exact absurd hd (by decide)
    · exact absurd hd (by decide)
  · exact absurd h (by decide)

theorem srcStage_falsy_no_p {uri : String} {pass : Option String}
    (huri : 'p' ∉ uri.data) (hpass : optTruthy pass = false) :
    'p' ∉ (srtSrcStage uri false pass).data := by
  intro hmem
  simp only [srtSrcStage, hpass, concat_lists, Bool.false_eq_true, if_false,
    List.flatten, List.append_nil, List.nil_append, pyJoin,
    String.data_append, List.mem_append] at hmem
  rcases hmem with (h | h) | h
  · exact absurd h (by decide)
  · exact huri h
  · exact absurd h (by decide)

theorem sinkStage_fec_contained (uri : String) (latency : Int) (pass : Option String) :
    "packetfilter=fec".data <:+: (srtSinkStage uri latency true pass).data := by
  cases hpass : optTruthy pass with
  | true =>
    exact ⟨("! srtsink uri=" ++ uri ++ " latency=" ++ Int.repr latency ++ " ").data,
      (",cols:3,rows:-3,layout:staircase,arq:always" ++ " " ++ "passphrase=" ++
        pass.getD "").data,
      by simp [srtSinkStage, hpass, pyJoin, concat_lists]⟩
  | false =>
    exact ⟨("! srtsink uri=" ++ uri ++ " latency=" ++ Int.repr latency ++ " ").data,
      (",cols:3,rows:-3,layout:staircase,arq:always" : String).data,
      by simp [srtSinkStage, hpass, pyJoin, concat_lists]⟩

theorem srcStage_fec_contained (uri : String) (pass : Option String) :
    "packetfilter=fec".data <:+: (srtSrcStage uri true pass).data := by
  cases hpass : optTruthy pass with
  | true =>
    exact ⟨("srtsrc uri=" ++ uri ++ " ").data,
      (" " ++ "passphrase=" ++ pass.getD "").data,
      by simp [srtSrcStage, hpass, pyJoin, concat_lists]⟩
  | false =>
    exact ⟨("srtsrc uri=" ++ uri ++ " ").data, [],
      by simp [srtSrcStage, hpass, pyJoin, concat_lists]⟩

theorem sinkStage_pass_contained (uri : String) (latency : Int) (fec : Bool)
    {p : String} (hne : p ≠ "") :
    ("passphrase=" ++ p).data <:+: (srtSinkStage uri latency fec (some p)).data := by
  have hpass : optTruthy (some p) = true := by simp [optTruthy, hne]
  cases fec with
  | true =>
    exact ⟨("! srtsink uri=" ++ uri ++ " latency=" ++ Int.repr latency ++ " " ++
      "packetfilter=fec,cols:3,rows:-3,layout:staircase,arq:always" ++ " ").data, [],
      by simp [srtSinkStage, hpass, pyJoin, concat_lists]⟩
  | false =>
    exact ⟨("! srtsink uri=" ++ uri ++ " latency=" ++ Int.repr latency ++ " ").data, [],
      by simp [srtSinkStage, hpass, pyJoin, concat_lists]⟩

theorem srcStage_pass_contained (uri : String) (fec : Bool) {p : String} (hne : p ≠ "") :
    ("passphrase=" ++ p).data <:+: (srtSrcStage uri fec (some p)).data := by
  have hpass : optTruthy (some p) = true := by simp [optTruthy, hne]
  cases fec with
  | true =>
    exact ⟨("srtsrc uri=" ++ uri ++ " " ++ "packetfilter=fec" ++ " ").data, [],
      by simp [srtSrcStage, hpass, pyJoin, concat_lists]⟩
  | false =>
    exact ⟨("srtsrc uri=" ++ uri ++ " ").data, [],
      by simp [srtSrcStage, hpass, pyJoin, concat_lists]⟩

/-- C7: for every configuration whose target URI contains no letter `p` —
which holds for both URI shapes the program builds, `srt://:PORT` and
`srt://IP:PORT` with a decimal port and a numeric IP — the sink/source stage
contains neither a FEC parameter substring nor a passphrase parameter
substring when FEC is off and the passphrase is not truthy; it contains the
FEC parameter when FEC is on; and it contains a passphrase parameter with
exactly the provided value when a non-empty passphrase is set. -/
theorem C7_optional_parameter_omission
    (uri : String) (latency : Int) (passphrase : Option String)
    (huri : 'p' ∉ uri.data) :
    (optTruthy passphrase = false →
      ¬ "packetfilter".data <:+: (srtSinkStage uri latency false passphrase).data ∧
      ¬ "passphrase".data <:+: (srtSinkStage uri latency false passphrase).data ∧
      ¬ "packetfilter".data <:+: (srtSrcStage uri false passphrase).data ∧
      ¬ "passphrase".data <:+: (srtSrcStage uri false passphrase).data) ∧
    ("packetfilter=fec".data <:+: (srtSinkStage uri latency true passphrase).data ∧
      "packetfilter=fec".data <:+: (srtSrcStage uri true passphrase).data) ∧
    (∀ (fec : Bool) (p : String), passphrase = some p → p ≠ "" →
      ("passphrase=" ++ p).data <:+: (srtSinkStage uri latency fec passphrase).data ∧
      ("passphrase=" ++ p).data <:+: (srtSrcStage uri fec passphrase).data) := by
  refine ⟨?_, ?_, ?_⟩
  · intro hpass
    refine ⟨?_, ?_, ?_, ?_⟩
    · exact not_infix_of_not_mem (by decide) (sinkStage_falsy_no_p latency huri hpass)
    · exact not_infix_of_not_mem (by decide) (sinkStage_falsy_no_p latency huri hpass)
    · exact not_infix_of_not_mem (by decide) (srcStage_falsy_no_p huri hpass)
    · exact not_infix_of_not_mem (by decide) (srcStage_falsy_no_p huri hpass)
  · exact ⟨sinkStage_fec_contained uri latency passphrase, srcStage_fec_contained uri passphrase⟩
  · intro fec p hp hne
    subst hp
    exact ⟨sinkStage_pass_contained uri latency fec hne, srcStage_pass_contained uri fec hne⟩

/-- C7 witness: the theorem applied at uri srt://:5000, latency 1000 and
passphrase secret. -/
theorem C7_witness :
    (optTruthy (some "secret") = false →
      ¬ "packetfilter".data <:+: (srtSinkStage "srt://:5000" 1000 false (some "secret")).data ∧
      ¬ "passphrase".data <:+: (srtSinkStage "srt://:5000" 1000 false (some "secret")).data ∧
      ¬ "packetfilter".data <:+: (srtSrcStage "srt://:5000" false (some "secret")).data ∧
      ¬ "passphrase".data <:+: (srtSrcStage "srt://:5000" false (some "secret")).data) ∧
    ("packetfilter=fec".data <:+: (srtSinkStage "srt://:5000" 1000 true (some "secret")).data ∧
      "packetfilter=fec".data <:+: (srtSrcStage "srt://:5000" true (some "secret")).data) ∧
    (∀ (fec : Bool) (p : String), (some "secret" : Option String) = some p → p ≠ "" →
      ("passphrase=" ++ p).data <:+: (srtSinkStage "srt://:5000" 1000 fec (some "secret")).data ∧
      ("passphrase=" ++ p).data <:+: (srtSrcStage "srt://:5000" fec (some "secret")).data) :=
  C7_optional_parameter_omission "srt://:5000" 1000 (some "secret") (by decide)

theorem pySplitChar_no_sep {sep : Char} : ∀ {l : List Char}, (∀ c ∈ l, c ≠ sep) →
    pySplitChar sep l = [l] := by
  intro l
  induction l with
  | nil => intro _; rfl
  | cons a rest ih =>
    intro h
    have ha : a ≠ sep := h a (by simp)
    have hr := ih (fun c hc => h c (by simp [hc]))
    simp [pySplitChar, ha, hr]

theorem pySplitChar_append {sep : Char} : ∀ {l1 : List Char} (l2 : List Char),
    (∀ c ∈ l1, c ≠ sep) →
    pySplitChar sep (l1 ++ sep :: l2) = l1 :: pySplitChar sep l2 := by
  intro l1
  induction l1 with
  | nil => intro l2 _; simp [pySplitChar]
  | cons a rest ih =>
    intro l2 h
    have ha : a ≠ sep := h a (by simp)
    have hr := ih l2 (fun c hc => h c (by simp [hc]))
    simp [pySplitChar, ha, hr]

theorem pySplit_hostport (host port : String)
    (hh : ∀ c ∈ host.data, c ≠ ':') (hp : ∀ c ∈ port.data, c ≠ ':') :
    pySplit ':' (host ++ ":" ++ port) = [host, port] := by
  unfold pySplit
  have hcolon : (":" : String).data = [':'] := rfl
  have hdata : (host ++ ":" ++ port).data = host.data ++ ':' :: port.data := by
    simp [hcolon]
  rw [hdata, pySplitChar_append port.data hh, pySplitChar_no_sep hp]
  simp only [List.map]
  rfl

/-- C8: the listen role with a truthy port string P yields exactly the
bind-style URI srt://:P (only the port embedded); the call role with
host:port (single colon) yields exactly the connect-style URI srt://A:P
where A is the resolved address of the host. -/
theorem C8_target_uri_construction :
    (∀ (resolve : String → String) (args : Args) (p : String),
      args.listen_port = some p → p ≠ "" →
      computeUri resolve args = Except.ok ("srt://:" ++ p)) ∧
    (∀ (resolve : String → String) (args : Args) (host port : String),
      optTruthy args.listen_port = false →
      args.call = some (host ++ ":" ++ port) →
      (∀ c ∈ host.data, c ≠ ':') → (∀ c ∈ port.data, c ≠ ':') →
      computeUri resolve args = Except.ok ("srt://" ++ resolve host ++ ":" ++ port)) := by
  constructor
  · intro resolve args p hlp hne
    have htr : optTruthy (some p) = true := by simp [optTruthy, hne]
    simp [computeUri, hlp, htr]
  · intro resolve args host port hfalse hcall hh hp
    have hne2 : (host ++ ":" ++ port) ≠ "" := by
      intro heq
      have hd : (host ++ ":" ++ port).data = [] := by rw [heq]
      have hcolon : (":" : String).data = [':'] := rfl
      simp [hcolon] at hd
    have htr : optTruthy (some (host ++ ":" ++ port)) = true := by
      simp [optTruthy, hne2]
    simp [computeUri, hfalse, hcall, htr, pySplit_hostport host port hh hp]

/-- C8 witness: the theorem applied to listen port 5000 and to call
example.com:5000 with a resolver returning 203.0.113.5. -/
theorem C8_witness :
    computeUri (fun _ => "203.0.113.5") { listen_port := some "5000" } =
      Except.ok "srt://:5000" ∧
    computeUri (fun _ => "203.0.113.5") { call := some "example.com:5000" } =
      Except.ok "srt://203.0.113.5:5000" :=
  ⟨C8_target_uri_construction.1 (fun _ => "203.0.113.5") { listen_port := some "5000" }
      "5000" rfl (by decide),
   C8_target_uri_construction.2 (fun _ => "203.0.113.5") { call := some "example.com:5000" }
      "example.com" "5000" rfl rfl (by decide) (by decide)⟩
